import Mathlib

/-!
Shallow embedding of `src/main.py` (watermark removal tool).

The program composes a handful of external imaging primitives (text
measurement, anti-aliased text rasterization, fast-marching inpainting,
image decode and encode) with its own glue logic: mask geometry, a batch
loop with a success/failure tally, and a blanket top-level handler.

The external primitives are not part of this repository; following the
spec (section 6) they are treated as black boxes.  They are gathered in
the oracle structure `CV`, and the repository functions are translated
from the source as functions of that oracle.  Effects (console output,
directory creation, file writes) are modelled as an explicit event list;
Python exceptions are modelled with `Except`/an `Option String` fault.
-/

/-- Multi-channel image buffer: `pixel row col chan` is the stored byte. -/
structure Img where
  height : Nat
  width : Nat
  channels : Nat
  pixel : Nat → Nat → Nat → Nat

/-- The numpy shape tuple of a decoded image, `[height, width, channels]`. -/
def Img.shape (i : Img) : List Nat := [i.height, i.width, i.channels]

/-- Single-channel image buffer (the watermark mask). -/
structure Mask where
  height : Nat
  width : Nat
  pixel : Nat → Nat → Nat

/-- Modelled from the spec: the external imaging-library boundary (spec
section 6).  The five primitives the program consumes are black boxes:
`textSize` is the text bounding-box measurement (font face, scale 6.0 and
thickness 18 are fixed by the code, hence folded into the oracle),
`render` is the anti-aliased rasterizer coverage (alpha in `0..255`) it
produces at a canvas pixel for a text drawn at a given origin, `synth`
gives the values the fast-marching inpainting synthesizes for masked
pixels, `inpaintFault` is the fault the inpainting call may raise,
`imread` is image decode (`none` on failure) and `imwriteOk` the boolean
status returned by image encode. -/
structure CV where
  textSize : String → Nat × Nat
  render : String → Int × Int → Nat → Nat → Nat
  synth : Img → Mask → Nat → Nat → Nat → Nat
  inpaintFault : Img → Mask → Option String
  imread : String → Option Img
  imwriteOk : String → Img → Bool

/-- First two components of a numpy shape (`image_shape[:2]` for the
shapes of decoded images, which always have at least two axes). -/
def shapeTake2 : List Nat → Nat × Nat
  | h :: w :: _ => (h, w)
  | [h] => (h, 0)
  | [] => (0, 0)

/-- The zero buffer `np.zeros(image_shape[:2], dtype=np.uint8)` of
`src/main.py` line 10: a single-channel all-zero mask of the first two
shape components. -/
def zerosMask (image_shape : List Nat) : Mask :=
  { height := (shapeTake2 image_shape).1
    width := (shapeTake2 image_shape).2
    pixel := fun _ _ => 0 }

/-- Source-over blend of an anti-aliased coverage `cov` (alpha in
`0..255`) drawing color 255 onto an existing byte `old`. -/
def blendOver (old cov : Nat) : Nat :=
  (old * (255 - cov) + 255 * cov) / 255

/-- Modelled from the spec: `cv2.putText(mask, text, org, font, scale,
255, thickness, LINE_AA)` (src/main.py line 22).  The rasterizer is the
black-box `cv.render` coverage; the library clips drawing to the canvas,
so pixels outside the buffer bounds are untouched, and in-bounds pixels
receive the anti-aliased blend of color 255 at the coverage alpha. -/
def putText (cv : CV) (m : Mask) (text : String) (org : Int × Int) : Mask :=
  { height := m.height
    width := m.width
    pixel := fun r c =>
      if r < m.height ∧ c < m.width then
        blendOver (m.pixel r c) (min (cv.render text org r c) 255)
      else
        m.pixel r c }

/-- Translation of `generate_text_mask(image_shape, text)`
(src/main.py lines 9-23).  Python `//` is floor division, hence
`Int.fdiv`. -/
def generate_text_mask (cv : CV) (image_shape : List Nat) (text : String) : Mask :=
  let mask := zerosMask image_shape
  let text_width := (cv.textSize text).1
  let text_height := (cv.textSize text).2
  let x : Int := Int.fdiv ((mask.width : Int) - (text_width : Int)) 2
  let y : Int := Int.fdiv ((mask.height : Int) + (text_height : Int)) 2
  putText cv mask text (x, y)

/-- The anchor point `(x, y)` computed at src/main.py lines 18-19, as a
standalone definition. -/
def maskAnchor (cv : CV) (height width : Nat) (text : String) : Int × Int :=
  (Int.fdiv ((width : Int) - ((cv.textSize text).1 : Int)) 2,
   Int.fdiv ((height : Int) + ((cv.textSize text).2 : Int)) 2)

/-- The image reconstructed by `cv2.inpaint(image, mask, 7,
cv2.INPAINT_TELEA)` in the non-faulting case.  Modelled from the spec
(section 4.2): pixels whose mask value is nonzero are replaced by the
synthesized content of the black-box algorithm, every other pixel is
passed through unchanged, and dimensions and channel count are those of
the input. -/
def telea (cv : CV) (image : Img) (mask : Mask) : Img :=
  { height := image.height
    width := image.width
    channels := image.channels
    pixel := fun r c ch =>
      if mask.pixel r c ≠ 0 then cv.synth image mask r c ch
      else image.pixel r c ch }

/-- Modelled from the spec: the `cv2.inpaint` call of src/main.py
line 34.  The external algorithm either faults (the exception
propagates to the caller, spec section 4.2) or returns the
reconstructed image `telea`.  The fixed radius 7 is passed through. -/
def inpaint (cv : CV) (image : Img) (mask : Mask) (radius : Nat) : Except String Img :=
  match cv.inpaintFault image mask with
  | some e => .error e
  | none =>
    let _ := radius
    .ok (telea cv image mask)

/-- One observable effect of a run: a console line, a
`mkdir(parents=True, exist_ok=True)` call, or an image-encode call
(`write path img ok` records the boolean status the encode returned,
which the program discards). -/
inductive Event where
  | msg (s : String)
  | mkdirParents (path : String)
  | write (path : String) (img : Img) (ok : Bool)

/-- Console lines among a list of events. -/
def messages (evs : List Event) : List String :=
  evs.filterMap fun e =>
    match e with
    | .msg s => some s
    | _ => none

/-- Paths of the image-encode calls among a list of events. -/
def writtenPaths (evs : List Event) : List String :=
  evs.filterMap fun e =>
    match e with
    | .write p _ _ => some p
    | _ => none

/-- Translation of `remove_watermark(image_path, output_path,
watermark_text)` (src/main.py lines 25-37).  A decode failure prints a
message and returns `False`; otherwise the mask is generated from the
image shape, the inpainting call runs (its fault, if any, propagates as
`.error`), and the result is written, the encode status being
discarded; the function then returns `True`. -/
def remove_watermark (cv : CV) (image_path output_path watermark_text : String) :
    Except String (Bool × List Event) :=
  match cv.imread image_path with
  | none => .ok (false, [Event.msg ("Error: Could not read image at " ++ image_path)])
  | some image =>
    let mask := generate_text_mask cv image.shape watermark_text
    match inpaint cv image mask 7 with
    | .error e => .error e
    | .ok result =>
      .ok (true, [Event.write output_path result (cv.imwriteOk output_path result)])

/-- The fault, if any, that `remove_watermark` propagates. -/
def rwFault (cv : CV) (image_path output_path watermark_text : String) : Option String :=
  match remove_watermark cv image_path output_path watermark_text with
  | .error e => some e
  | .ok _ => none

/-- The boolean `remove_watermark` returns when it does not fault. -/
def rwReturn (cv : CV) (image_path output_path watermark_text : String) : Option Bool :=
  match remove_watermark cv image_path output_path watermark_text with
  | .error _ => none
  | .ok (b, _) => some b

/-- The effects `remove_watermark` produced when it did not fault. -/
def rwEvents (cv : CV) (image_path output_path watermark_text : String) : List Event :=
  match remove_watermark cv image_path output_path watermark_text with
  | .error _ => []
  | .ok (_, evs) => evs

/-- A direct child of the input directory as seen by
`input_dir.iterdir()`: its final name component and whether it is a
regular file (directories and other entries are listed too). -/
structure Entry where
  name : String
  isFile : Bool
deriving DecidableEq, Repr

/-- The extension allow-list of src/main.py line 46. -/
def image_extensions : List String :=
  [".jpg", ".jpeg", ".png", ".bmp", ".tiff", ".tif"]

/-- ASCII lowercasing, the special case of Python `str.lower()` the
allow-list comparison exercises (every listed extension is ASCII). -/
def toLowerAscii (s : String) : String :=
  String.mk (s.toList.map Char.toLower)

/-- Python `pathlib` suffix of a name: the part from the last dot on,
provided that dot is neither the first nor the last character,
otherwise the empty string. -/
def pySuffix (name : String) : String :=
  let cs := name.toList
  let n := cs.length
  let j := cs.reverse.indexOf '.'
  if j < n then
    let i := n - 1 - j
    if 0 < i ∧ i < n - 1 then String.mk (cs.drop i) else ""
  else ""

/-- The selection predicate of src/main.py line 47:
`f.suffix.lower() in image_extensions`.  Only the name is consulted. -/
def isImageFile (f : Entry) : Bool :=
  image_extensions.contains (toLowerAscii (pySuffix f.name))

/-- The candidate list `image_files` of src/main.py line 47. -/
def imageFiles (entries : List Entry) : List Entry :=
  entries.filter isImageFile

/-- Joining a directory path and a child name. -/
def joinPath (dir name : String) : String := dir ++ "/" ++ name

/-- The per-file loop of src/main.py lines 56-60, returning the
`processed_count`, the accumulated effects, and the first propagated
fault if one occurred (the loop is abandoned there; Python unwinds the
whole loop on an uncaught exception). -/
def processLoop (cv : CV) (input_dir output_dir text : String) :
    List Entry → Nat × List Event × Option String
  | [] => (0, [], none)
  | f :: rest =>
    match remove_watermark cv (joinPath input_dir f.name) (joinPath output_dir f.name) text with
    | .error e => (0, [], some e)
    | .ok (b, evs) =>
      let tail := processLoop cv input_dir output_dir text rest
      ((if b then 1 else 0) + tail.1, evs ++ tail.2.1, tail.2.2)

/-- Translation of `process_images(input_dir, output_dir,
watermark_text)` (src/main.py lines 39-64): create the output directory
(parents included) first, select candidates by extension, report when
none are found, otherwise process each file and print the tally.  The
second component is the fault that escaped the loop, if any. -/
def process_images (cv : CV) (entries : List Entry)
    (input_dir output_dir text : String) : List Event × Option String :=
  let ev0 := [Event.mkdirParents output_dir]
  let image_files := imageFiles entries
  if image_files.isEmpty then
    (ev0 ++ [Event.msg ("No image files found in " ++ input_dir)], none)
  else
    let ev1 := ev0 ++ [Event.msg ("Found " ++ toString image_files.length ++ " images to process")]
    match processLoop cv input_dir output_dir text image_files with
    | (k, evs, none) =>
      (ev1 ++ evs ++
        [Event.msg "Processing complete:",
         Event.msg ("- Successful: " ++ toString k),
         Event.msg ("- Failed: " ++ toString (image_files.length - k))], none)
    | (_, evs, some e) => (ev1 ++ evs, some e)

/-- Translation of `main()` (src/main.py lines 66-77): run the batch
under the blanket handler; a caught fault only prints a message.  The
second component is the process exit status, which is 0 on both paths
(the handler swallows the error and the script falls off the end). -/
def mainRun (cv : CV) (entries : List Entry)
    (input_dir output_dir text : String) : List Event × Nat :=
  match process_images cv entries input_dir output_dir text with
  | (evs, none) => (evs, 0)
  | (evs, some e) => (evs ++ [Event.msg ("Error: " ++ e)], 0)

/-- Whether the library decodes the named directory child. -/
def decodes (cv : CV) (input_dir : String) (f : Entry) : Bool :=
  (cv.imread (joinPath input_dir f.name)).isSome

/-- The effects the per-file loop accumulates over a list of files when
none of them faults. -/
def loopEvents (cv : CV) (input_dir output_dir text : String) (files : List Entry) : List Event :=
  files.flatMap fun f =>
    rwEvents cv (joinPath input_dir f.name) (joinPath output_dir f.name) text

/-! Concrete fixtures used by the witness and counterexample theorems. -/

/-- A small concrete test image. -/
def imgW : Img :=
  { height := 2, width := 2, channels := 3, pixel := fun r c ch => r + c + ch }

/-- A second concrete image, distinguishable by its channel count. -/
def imgOdd : Img :=
  { height := 2, width := 2, channels := 9, pixel := fun _ _ _ => 1 }

/-- A concrete mask marking one pixel. -/
def maskW : Mask :=
  { height := 2, width := 2, pixel := fun r c => if r = 0 ∧ c = 0 then 255 else 0 }

/-- An oracle whose rasterizer reports a half-covered (anti-aliased
edge) pixel everywhere. -/
def cvHalf : CV :=
  { textSize := fun _ => (10, 5)
    render := fun _ _ _ _ => 128
    synth := fun _ _ _ _ _ => 0
    inpaintFault := fun _ _ => none
    imread := fun _ => none
    imwriteOk := fun _ _ => true }

/-- An oracle measuring a bounding box far wider than any small canvas. -/
def cvWide : CV :=
  { textSize := fun _ => (2000, 300)
    render := fun _ _ _ _ => 0
    synth := fun _ _ _ _ _ => 0
    inpaintFault := fun _ _ => none
    imread := fun _ => none
    imwriteOk := fun _ _ => true }

/-- An oracle whose decode and inpainting always succeed. -/
def cvBase : CV :=
  { textSize := fun _ => (10, 5)
    render := fun _ _ _ _ => 0
    synth := fun _ _ _ _ _ => 7
    inpaintFault := fun _ _ => none
    imread := fun _ => some imgW
    imwriteOk := fun _ _ => true }

/-- An oracle for the 3-valid-plus-1-corrupt batch scenario: every file
decodes except `in/corrupt.bmp`. -/
def cvBatch : CV :=
  { textSize := fun _ => (10, 5)
    render := fun _ _ _ _ => 0
    synth := fun _ _ _ _ _ => 7
    inpaintFault := fun _ _ => none
    imread := fun p => if p = "in/corrupt.bmp" then none else some imgW
    imwriteOk := fun _ _ => true }

/-- The batch directory listing for that scenario. -/
def entriesBatch : List Entry :=
  [⟨"a.png", true⟩, ⟨"b.png", true⟩, ⟨"c.png", true⟩, ⟨"corrupt.bmp", true⟩]

/-- An oracle where `in/bad.png` decodes to an image on which the
inpainting call faults, while every other file processes cleanly. -/
def cvFaulty : CV :=
  { textSize := fun _ => (10, 5)
    render := fun _ _ _ _ => 0
    synth := fun _ _ _ _ _ => 7
    inpaintFault := fun img _ => if img.channels = 9 then some "boom" else none
    imread := fun p => if p = "in/bad.png" then some imgOdd else some imgW
    imwriteOk := fun _ _ => true }

/-- The directory listing for the faulting-batch scenario. -/
def entriesFaulty : List Entry :=
  [⟨"good.png", true⟩, ⟨"bad.png", true⟩, ⟨"late.png", true⟩]

/-- An oracle whose image-encode call always reports failure. -/
def cvNoWrite : CV :=
  { textSize := fun _ => (10, 5)
    render := fun _ _ _ _ => 0
    synth := fun _ _ _ _ _ => 7
    inpaintFault := fun _ _ => none
    imread := fun _ => some imgW
    imwriteOk := fun _ _ => false }

/-- A directory listing with no allow-listed entries. -/
def entriesTxt : List Entry :=
  [⟨"readme.txt", true⟩, ⟨"sub", false⟩]

/-- A directory listing whose only allow-listed entry is a
subdirectory named like an image. -/
def entriesSubdir : List Entry :=
  [⟨"notes.txt", true⟩, ⟨"Thumbs.PNG", false⟩]

/-! Helper lemmas shared by several developments below. -/

lemma blendOver_zero (a : Nat) : blendOver 0 a = a := by
  unfold blendOver
  omega

lemma generate_text_mask_eq (cv : CV) (H W : Nat) (rest : List Nat) (text : String) :
    generate_text_mask cv (H :: W :: rest) text =
      putText cv (zerosMask (H :: W :: rest)) text (maskAnchor cv H W text) := rfl

lemma fdiv_two_le (a : Int) : 2 * Int.fdiv a 2 ≤ a := by
  rw [Int.fdiv_eq_ediv _ (by norm_num : (0 : Int) ≤ 2)]
  omega

lemma lt_fdiv_two_add (a : Int) : a < 2 * Int.fdiv a 2 + 2 := by
  rw [Int.fdiv_eq_ediv _ (by norm_num : (0 : Int) ≤ 2)]
  omega

lemma fdiv_two_neg {a : Int} (h : a < 0) : Int.fdiv a 2 < 0 := by
  rw [Int.fdiv_eq_ediv _ (by norm_num : (0 : Int) ≤ 2)]
  omega

/-- C1: for every image shape whose first two components are `H` and
`W` and every text string, `generate_text_mask` returns a
single-channel buffer of dimensions exactly `H` by `W`, drawn over a
buffer that is all zero before the text is rendered, regardless of the
channel-count components of the shape. -/
theorem C1_mask_dims (cv : CV) (H W : Nat) (rest : List Nat) (text : String) :
    (generate_text_mask cv (H :: W :: rest) text).height = H ∧
    (generate_text_mask cv (H :: W :: rest) text).width = W ∧
    generate_text_mask cv (H :: W :: rest) text =
      putText cv (zerosMask (H :: W :: rest)) text (maskAnchor cv H W text) ∧
    (zerosMask (H :: W :: rest)).height = H ∧
    (zerosMask (H :: W :: rest)).width = W ∧
    ∀ r c, (zerosMask (H :: W :: rest)).pixel r c = 0 :=
  ⟨rfl, rfl, rfl, rfl, rfl, fun _ _ => rfl⟩

/-- C3: the text is anchored at `x = (W - tw) / 2` and
`y = (H + th) / 2`, both by integer floor division (characterized by
the floor inequalities over the measured size `(tw, th)`). -/
theorem C3_anchor_formula (cv : CV) (H W : Nat) (rest : List Nat) (text : String) :
    generate_text_mask cv (H :: W :: rest) text =
      putText cv (zerosMask (H :: W :: rest)) text (maskAnchor cv H W text) ∧
    maskAnchor cv H W text =
      (Int.fdiv ((W : Int) - ((cv.textSize text).1 : Int)) 2,
       Int.fdiv ((H : Int) + ((cv.textSize text).2 : Int)) 2) ∧
    (2 * (maskAnchor cv H W text).1 ≤ (W : Int) - ((cv.textSize text).1 : Int) ∧
      (W : Int) - ((cv.textSize text).1 : Int) < 2 * (maskAnchor cv H W text).1 + 2) ∧
    (2 * (maskAnchor cv H W text).2 ≤ (H : Int) + ((cv.textSize text).2 : Int) ∧
      (H : Int) + ((cv.textSize text).2 : Int) < 2 * (maskAnchor cv H W text).2 + 2) :=
  ⟨rfl, rfl,
   ⟨fdiv_two_le _, lt_fdiv_two_add _⟩,
   ⟨fdiv_two_le _, lt_fdiv_two_add _⟩⟩

/-- C7: `generate_text_mask` has no error path: even when the measured
bounding box is wider than the canvas, so that the anchor abscissa is
negative, it still returns an `H` by `W` mask and the rendering is
silently clipped, leaving every out-of-canvas coordinate at zero. -/
theorem C7_no_error_path (cv : CV) (H W : Nat) (rest : List Nat) (text : String)
    (hwide : (W : Int) < ((cv.textSize text).1 : Int)) :
    (maskAnchor cv H W text).1 < 0 ∧
    (generate_text_mask cv (H :: W :: rest) text).height = H ∧
    (generate_text_mask cv (H :: W :: rest) text).width = W ∧
    ∀ r c, ¬(r < H ∧ c < W) →
      (generate_text_mask cv (H :: W :: rest) text).pixel r c = 0 := by
  refine ⟨fdiv_two_neg (by omega), rfl, rfl, fun r c h => ?_⟩
  show (if r < H ∧ c < W then _ else (0 : Nat)) = 0
  rw [if_neg h]

/-- Closed witness for `C7_no_error_path` at a concrete oracle and
canvas. -/
theorem C7_no_error_path_witness :
    ((50 : Int) < ((cvWide.textSize "SAMPLE").1 : Int)) ∧
    ((maskAnchor cvWide 40 50 "SAMPLE").1 < 0 ∧
      (generate_text_mask cvWide [40, 50, 3] "SAMPLE").height = 40 ∧
      (generate_text_mask cvWide [40, 50, 3] "SAMPLE").width = 50 ∧
      ∀ r c, ¬(r < 40 ∧ c < 50) →
        (generate_text_mask cvWide [40, 50, 3] "SAMPLE").pixel r c = 0) :=
  ⟨by decide, C7_no_error_path cvWide 40 50 [3] "SAMPLE" (by decide)⟩

/-- C2 counterexample: with an anti-aliased rasterization whose edge
coverage is 128, the mask holds the intermediate value 128 at a pixel,
so the mask is not binary. -/
theorem C2_not_binary_counterexample :
    ¬ ((generate_text_mask cvHalf [4, 4, 3] "SAMPLE").pixel 0 0 = 0 ∨
       (generate_text_mask cvHalf [4, 4, 3] "SAMPLE").pixel 0 0 = 255) := by
  decide

/-- C2 (amended): each in-canvas mask pixel equals the anti-aliased
coverage the rasterizer reports there (clamped to 255): pixels with
zero coverage are 0, fully covered pixels are 255, but anti-aliased
edge pixels may hold intermediate values, so no value ever exceeds 255
yet the mask need not be binary. -/
theorem C2_pixel_is_coverage (cv : CV) (H W : Nat) (rest : List Nat) (text : String)
    (r c : Nat) (hr : r < H) (hc : c < W) :
    (generate_text_mask cv (H :: W :: rest) text).pixel r c
      = min (cv.render text (maskAnchor cv H W text) r c) 255 ∧
    (generate_text_mask cv (H :: W :: rest) text).pixel r c ≤ 255 ∧
    (cv.render text (maskAnchor cv H W text) r c = 0 →
      (generate_text_mask cv (H :: W :: rest) text).pixel r c = 0) ∧
    (255 ≤ cv.render text (maskAnchor cv H W text) r c →
      (generate_text_mask cv (H :: W :: rest) text).pixel r c = 255) := by
  have hpix : (generate_text_mask cv (H :: W :: rest) text).pixel r c
      = min (cv.render text (maskAnchor cv H W text) r c) 255 := by
    show (if r < H ∧ c < W then
        blendOver 0 (min (cv.render text (maskAnchor cv H W text) r c) 255)
      else (0 : Nat)) = _
    rw [if_pos ⟨hr, hc⟩, blendOver_zero]
  refine ⟨hpix, ?_, ?_, ?_⟩
  · rw [hpix]; omega
  · intro h0; rw [hpix, h0]; rfl
  · intro h255; rw [hpix]; omega

/-- Closed witness for `C2_pixel_is_coverage` at a concrete oracle,
where the edge pixel indeed holds the coverage value 128. -/
theorem C2_pixel_is_coverage_witness :
    (0 < 4) ∧
    ((generate_text_mask cvHalf [4, 4, 3] "SAMPLE").pixel 0 0
        = min (cvHalf.render "SAMPLE" (maskAnchor cvHalf 4 4 "SAMPLE") 0 0) 255 ∧
      (generate_text_mask cvHalf [4, 4, 3] "SAMPLE").pixel 0 0 ≤ 255 ∧
      (cvHalf.render "SAMPLE" (maskAnchor cvHalf 4 4 "SAMPLE") 0 0 = 0 →
        (generate_text_mask cvHalf [4, 4, 3] "SAMPLE").pixel 0 0 = 0) ∧
      (255 ≤ cvHalf.render "SAMPLE" (maskAnchor cvHalf 4 4 "SAMPLE") 0 0 →
        (generate_text_mask cvHalf [4, 4, 3] "SAMPLE").pixel 0 0 = 255)) :=
  ⟨by decide, C2_pixel_is_coverage cvHalf 4 4 [3] "SAMPLE" 0 0 (by decide) (by decide)⟩

/-- C4: when the inpainting call returns, its result has the
dimensions and channel count of the input image and agrees with the
input at every pixel whose mask value is zero (unmasked pixels are
passed through unchanged). -/
theorem C4_inpaint_frame (cv : CV) (image : Img) (mask : Mask) (radius : Nat) (result : Img)
    (h : inpaint cv image mask radius = .ok result) :
    result.height = image.height ∧
    result.width = image.width ∧
    result.channels = image.channels ∧
    ∀ r c ch, mask.pixel r c = 0 → result.pixel r c ch = image.pixel r c ch := by
  unfold inpaint at h
  cases hf : cv.inpaintFault image mask <;> rw [hf] at h
  · have hres : result = telea cv image mask := by
      cases h
      rfl
    subst hres
    refine ⟨rfl, rfl, rfl, fun r c ch h0 => ?_⟩
    show (if mask.pixel r c ≠ 0 then _ else image.pixel r c ch) = image.pixel r c ch
    rw [if_neg (by rw [h0]; exact fun hne => hne rfl)]
  · exact absurd h (by simp)

/-- Closed witness for `C4_inpaint_frame` on a concrete image and
mask. -/
theorem C4_inpaint_frame_witness :
    (inpaint cvBase imgW maskW 7 = .ok (telea cvBase imgW maskW)) ∧
    ((telea cvBase imgW maskW).height = imgW.height ∧
      (telea cvBase imgW maskW).width = imgW.width ∧
      (telea cvBase imgW maskW).channels = imgW.channels ∧
      ∀ r c ch, maskW.pixel r c = 0 →
        (telea cvBase imgW maskW).pixel r c ch = imgW.pixel r c ch) :=
  ⟨rfl, C4_inpaint_frame cvBase imgW maskW 7 (telea cvBase imgW maskW) rfl⟩

/-! Helper lemmas about `remove_watermark` and the per-file loop. -/

lemma rw_imread_none (cv : CV) (p o t : String) (hi : cv.imread p = none) :
    remove_watermark cv p o t =
      .ok (false, [Event.msg ("Error: Could not read image at " ++ p)]) := by
  unfold remove_watermark
  rw [hi]

lemma rw_imread_some (cv : CV) (p o t : String) (img : Img)
    (hi : cv.imread p = some img)
    (hf : cv.inpaintFault img (generate_text_mask cv img.shape t) = none) :
    remove_watermark cv p o t =
      .ok (true, [Event.write o (telea cv img (generate_text_mask cv img.shape t))
        (cv.imwriteOk o (telea cv img (generate_text_mask cv img.shape t)))]) := by
  simp only [remove_watermark, inpaint, hi, hf]

lemma rw_imread_some_fault (cv : CV) (p o t : String) (img : Img) (e : String)
    (hi : cv.imread p = some img)
    (hf : cv.inpaintFault img (generate_text_mask cv img.shape t) = some e) :
    remove_watermark cv p o t = .error e := by
  simp only [remove_watermark, inpaint, hi, hf]

lemma rw_of_fault (cv : CV) (p o t : String) (e : String)
    (h : rwFault cv p o t = some e) : remove_watermark cv p o t = .error e := by
  unfold rwFault at h
  cases hr : remove_watermark cv p o t <;> rw [hr] at h
  · cases h
    rfl
  · cases h

lemma rw_no_fault_eq (cv : CV) (p o t : String) (h : rwFault cv p o t = none) :
    remove_watermark cv p o t = .ok ((cv.imread p).isSome, rwEvents cv p o t) := by
  cases hi : cv.imread p
  · rw [rw_imread_none cv p o t hi]
    simp [rwEvents, rw_imread_none cv p o t hi]
  · rename_i img
    cases hf : cv.inpaintFault img (generate_text_mask cv img.shape t)
    · rw [rw_imread_some cv p o t img hi hf]
      simp [rwEvents, rw_imread_some cv p o t img hi hf]
    · rename_i e
      exfalso
      have := rw_imread_some_fault cv p o t img e hi hf
      rw [rwFault, this] at h
      cases h

lemma rwEvents_writtenPaths (cv : CV) (p o t : String) (h : rwFault cv p o t = none) :
    writtenPaths (rwEvents cv p o t) = if (cv.imread p).isSome then [o] else [] := by
  cases hi : cv.imread p
  · simp [rwEvents, rw_imread_none cv p o t hi, writtenPaths]
  · rename_i img
    cases hf : cv.inpaintFault img (generate_text_mask cv img.shape t)
    · simp [rwEvents, rw_imread_some cv p o t img hi hf, writtenPaths]
    · rename_i e
      exfalso
      have := rw_imread_some_fault cv p o t img e hi hf
      rw [rwFault, this] at h
      cases h

lemma countP_not_eq (l : List Entry) (p : Entry → Bool) :
    l.countP (fun f => !(p f)) = l.length - l.countP p := by
  induction l with
  | nil => rfl
  | cons f rest ih =>
    have := List.countP_le_length p (l := rest)
    cases hp : p f <;> (simp [List.countP_cons, hp, ih]; try omega)

lemma rwEvents_messages (cv : CV) (p o t : String) (h : rwFault cv p o t = none) :
    messages (rwEvents cv p o t) =
      if (cv.imread p).isSome then []
      else ["Error: Could not read image at " ++ p] := by
  cases hi : cv.imread p
  · simp [rwEvents, rw_imread_none cv p o t hi, messages]
  · rename_i img
    cases hf : cv.inpaintFault img (generate_text_mask cv img.shape t)
    · simp [rwEvents, rw_imread_some cv p o t img hi hf, messages]
    · rename_i e
      exfalso
      have := rw_imread_some_fault cv p o t img e hi hf
      rw [rwFault, this] at h
      cases h

lemma processLoop_ok (cv : CV) (input_dir output_dir text : String) (files : List Entry)
    (hok : ∀ f ∈ files,
      rwFault cv (joinPath input_dir f.name) (joinPath output_dir f.name) text = none) :
    processLoop cv input_dir output_dir text files =
      (files.countP (decodes cv input_dir),
       loopEvents cv input_dir output_dir text files, none) := by
  induction files with
  | nil => rfl
  | cons f rest ih =>
    have hf := hok f (List.mem_cons_self f rest)
    have hrest := fun g hg => hok g (List.mem_cons_of_mem f hg)
    unfold processLoop
    rw [rw_no_fault_eq cv _ _ text hf, ih hrest]
    simp only [loopEvents, List.flatMap_cons, List.countP_cons, decodes]
    refine Prod.ext ?_ rfl
    dsimp only
    exact Nat.add_comm _ _

lemma processLoop_fault (cv : CV) (input_dir output_dir text : String)
    (pre : List Entry) (bad : Entry) (post : List Entry) (e : String)
    (hpre : ∀ f ∈ pre,
      rwFault cv (joinPath input_dir f.name) (joinPath output_dir f.name) text = none)
    (hbad : rwFault cv (joinPath input_dir bad.name) (joinPath output_dir bad.name) text
      = some e) :
    processLoop cv input_dir output_dir text (pre ++ bad :: post) =
      (pre.countP (decodes cv input_dir),
       loopEvents cv input_dir output_dir text pre, some e) := by
  induction pre with
  | nil =>
    show processLoop cv input_dir output_dir text (bad :: post) = _
    unfold processLoop
    rw [rw_of_fault cv _ _ text e hbad]
    rfl
  | cons f rest ih =>
    have hf := hpre f (List.mem_cons_self f rest)
    have hrest := fun g hg => hpre g (List.mem_cons_of_mem f hg)
    show processLoop cv input_dir output_dir text (f :: (rest ++ bad :: post)) = _
    unfold processLoop
    rw [rw_no_fault_eq cv _ _ text hf, ih hrest]
    simp only [loopEvents, List.flatMap_cons, List.countP_cons, decodes]
    refine Prod.ext ?_ rfl
    dsimp only
    exact Nat.add_comm _ _

lemma messages_append (l1 l2 : List Event) :
    messages (l1 ++ l2) = messages l1 ++ messages l2 :=
  List.filterMap_append l1 l2 _

lemma writtenPaths_append (l1 l2 : List Event) :
    writtenPaths (l1 ++ l2) = writtenPaths l1 ++ writtenPaths l2 :=
  List.filterMap_append l1 l2 _

lemma loopEvents_cons (cv : CV) (input_dir output_dir text : String)
    (f : Entry) (rest : List Entry) :
    loopEvents cv input_dir output_dir text (f :: rest) =
      rwEvents cv (joinPath input_dir f.name) (joinPath output_dir f.name) text
        ++ loopEvents cv input_dir output_dir text rest := by
  simp [loopEvents]

lemma loopEvents_writtenPaths (cv : CV) (input_dir output_dir text : String)
    (files : List Entry)
    (hok : ∀ f ∈ files,
      rwFault cv (joinPath input_dir f.name) (joinPath output_dir f.name) text = none) :
    writtenPaths (loopEvents cv input_dir output_dir text files) =
      (files.filter (decodes cv input_dir)).map (fun f => joinPath output_dir f.name) := by
  induction files with
  | nil => rfl
  | cons f rest ih =>
    have hf := hok f (List.mem_cons_self f rest)
    have hrest := fun g hg => hok g (List.mem_cons_of_mem f hg)
    rw [loopEvents_cons, writtenPaths_append, rwEvents_writtenPaths cv _ _ text hf,
      ih hrest]
    cases hd : cv.imread (joinPath input_dir f.name) <;>
      simp [List.filter_cons, decodes, hd]

lemma loopEvents_messages (cv : CV) (input_dir output_dir text : String)
    (files : List Entry)
    (hok : ∀ f ∈ files,
      rwFault cv (joinPath input_dir f.name) (joinPath output_dir f.name) text = none) :
    messages (loopEvents cv input_dir output_dir text files) =
      (files.filter (fun f => !(decodes cv input_dir f))).map
        (fun f => "Error: Could not read image at " ++ joinPath input_dir f.name) := by
  induction files with
  | nil => rfl
  | cons f rest ih =>
    have hf := hok f (List.mem_cons_self f rest)
    have hrest := fun g hg => hok g (List.mem_cons_of_mem f hg)
    rw [loopEvents_cons, messages_append, rwEvents_messages cv _ _ text hf, ih hrest]
    cases hd : cv.imread (joinPath input_dir f.name) <;>
      simp [List.filter_cons, decodes, hd]

/-- C8: when the input directory holds no allow-listed entries, the
batch first creates the output directory (parents included), then
reports that no image files were found, and returns without a fault. -/
theorem C8_empty_input (cv : CV) (entries : List Entry)
    (input_dir output_dir text : String) (h : imageFiles entries = []) :
    (process_images cv entries input_dir output_dir text).2 = none ∧
    (process_images cv entries input_dir output_dir text).1 =
      [Event.mkdirParents output_dir,
       Event.msg ("No image files found in " ++ input_dir)] := by
  have hpi : process_images cv entries input_dir output_dir text =
      ([Event.mkdirParents output_dir,
        Event.msg ("No image files found in " ++ input_dir)], none) := by
    simp only [process_images, h]
    rfl
  rw [hpi]
  exact ⟨rfl, rfl⟩

/-- Closed witness for `C8_empty_input` on a directory listing with no
allow-listed entries. -/
theorem C8_empty_input_witness :
    (imageFiles entriesTxt = []) ∧
    ((process_images cvBase entriesTxt "in" "out" "SAMPLE").2 = none ∧
      (process_images cvBase entriesTxt "in" "out" "SAMPLE").1 =
        [Event.mkdirParents "out",
         Event.msg ("No image files found in " ++ "in")]) :=
  ⟨by decide, C8_empty_input cvBase entriesTxt "in" "out" "SAMPLE" (by decide)⟩

/-- C9: once decode succeeds and the inpainting call returns,
`remove_watermark` returns `True` and the single-file loop counts a
success, even though the image-encode call reported failure: the
recorded encode status in the write event is `false` and is ignored. -/
theorem C9_encode_status_ignored (cv : CV) (input_dir output_dir text : String)
    (f : Entry) (img : Img)
    (hread : cv.imread (joinPath input_dir f.name) = some img)
    (hfault : cv.inpaintFault img (generate_text_mask cv img.shape text) = none)
    (hwrite : cv.imwriteOk (joinPath output_dir f.name)
      (telea cv img (generate_text_mask cv img.shape text)) = false) :
    rwReturn cv (joinPath input_dir f.name) (joinPath output_dir f.name) text
      = some true ∧
    rwEvents cv (joinPath input_dir f.name) (joinPath output_dir f.name) text =
      [Event.write (joinPath output_dir f.name)
        (telea cv img (generate_text_mask cv img.shape text)) false] ∧
    (processLoop cv input_dir output_dir text [f]).1 = 1 := by
  have hrw := rw_imread_some cv (joinPath input_dir f.name)
    (joinPath output_dir f.name) text img hread hfault
  rw [hwrite] at hrw
  refine ⟨?_, ?_, ?_⟩
  · unfold rwReturn
    rw [hrw]
  · unfold rwEvents
    rw [hrw]
  · unfold processLoop
    rw [hrw]
    rfl

/-- Closed witness for `C9_encode_status_ignored` with an oracle whose
encode call always fails. -/
theorem C9_encode_status_ignored_witness :
    (cvNoWrite.imread (joinPath "in" "a.png") = some imgW) ∧
    (cvNoWrite.inpaintFault imgW (generate_text_mask cvNoWrite imgW.shape "SAMPLE")
      = none) ∧
    (cvNoWrite.imwriteOk (joinPath "out" "a.png")
      (telea cvNoWrite imgW (generate_text_mask cvNoWrite imgW.shape "SAMPLE"))
      = false) ∧
    (rwReturn cvNoWrite (joinPath "in" "a.png") (joinPath "out" "a.png") "SAMPLE"
        = some true ∧
      rwEvents cvNoWrite (joinPath "in" "a.png") (joinPath "out" "a.png") "SAMPLE" =
        [Event.write (joinPath "out" "a.png")
          (telea cvNoWrite imgW (generate_text_mask cvNoWrite imgW.shape "SAMPLE"))
          false] ∧
      (processLoop cvNoWrite "in" "out" "SAMPLE" [⟨"a.png", true⟩]).1 = 1) :=
  ⟨rfl, rfl, rfl,
   C9_encode_status_ignored cvNoWrite "in" "out" "SAMPLE" ⟨"a.png", true⟩ imgW
     rfl rfl rfl⟩

/-- C10: the candidate list is selected solely by case-insensitive
suffix match: the predicate never reads whether the entry is a regular
file, so a non-file entry with an allow-listed extension is selected,
and, failing decode, `remove_watermark` returns `False`, so the entry
is counted as a failed file. -/
theorem C10_selection_ignores_kind (cv : CV) (entries : List Entry)
    (input_dir output_dir text : String) (e : Entry)
    (hsel : isImageFile e = true) (hmem : e ∈ entries)
    (hdecode : cv.imread (joinPath input_dir e.name) = none) :
    (∀ b, isImageFile { name := e.name, isFile := b } = true) ∧
    e ∈ imageFiles entries ∧
    remove_watermark cv (joinPath input_dir e.name) (joinPath output_dir e.name) text =
      .ok (false,
        [Event.msg ("Error: Could not read image at " ++ joinPath input_dir e.name)]) ∧
    rwReturn cv (joinPath input_dir e.name) (joinPath output_dir e.name) text
      = some false := by
  have hrw := rw_imread_none cv (joinPath input_dir e.name)
    (joinPath output_dir e.name) text hdecode
  refine ⟨fun b => hsel, List.mem_filter.mpr ⟨hmem, hsel⟩, hrw, ?_⟩
  unfold rwReturn
  rw [hrw]

/-- Closed witness for `C10_selection_ignores_kind`: a subdirectory
named `Thumbs.PNG` is selected and fails. -/
theorem C10_selection_ignores_kind_witness :
    (isImageFile ⟨"Thumbs.PNG", false⟩ = true) ∧
    ((⟨"Thumbs.PNG", false⟩ : Entry) ∈ entriesSubdir) ∧
    (cvHalf.imread (joinPath "in" "Thumbs.PNG") = none) ∧
    ((∀ b, isImageFile { name := "Thumbs.PNG", isFile := b } = true) ∧
      (⟨"Thumbs.PNG", false⟩ : Entry) ∈ imageFiles entriesSubdir ∧
      remove_watermark cvHalf (joinPath "in" "Thumbs.PNG")
          (joinPath "out" "Thumbs.PNG") "SAMPLE" =
        .ok (false,
          [Event.msg ("Error: Could not read image at " ++ joinPath "in" "Thumbs.PNG")]) ∧
      rwReturn cvHalf (joinPath "in" "Thumbs.PNG") (joinPath "out" "Thumbs.PNG")
        "SAMPLE" = some false) :=
  ⟨by decide, by decide, rfl,
   C10_selection_ignores_kind cvHalf entriesSubdir "in" "out" "SAMPLE"
     ⟨"Thumbs.PNG", false⟩ (by decide) (by decide) rfl⟩

/-- C5: in a batch where no library call faults, every file that fails
to decode is reported by a console message and skipped (only decodable
files are written, under their own names), processing continues, the
run ends without a fault, and the final tally prints the number of
decoded files as Successful and the number of decode failures as
Failed. -/
theorem C5_decode_failures_tallied (cv : CV) (entries : List Entry)
    (input_dir output_dir text : String)
    (hne : imageFiles entries ≠ [])
    (hok : ∀ f ∈ imageFiles entries,
      rwFault cv (joinPath input_dir f.name) (joinPath output_dir f.name) text = none) :
    (process_images cv entries input_dir output_dir text).2 = none ∧
    ("- Successful: " ++ toString ((imageFiles entries).countP (decodes cv input_dir)))
      ∈ messages (process_images cv entries input_dir output_dir text).1 ∧
    ("- Failed: " ++
        toString ((imageFiles entries).countP (fun f => !(decodes cv input_dir f))))
      ∈ messages (process_images cv entries input_dir output_dir text).1 ∧
    writtenPaths (process_images cv entries input_dir output_dir text).1 =
      ((imageFiles entries).filter (decodes cv input_dir)).map
        (fun f => joinPath output_dir f.name) ∧
    ∀ f ∈ imageFiles entries, decodes cv input_dir f = false →
      ("Error: Could not read image at " ++ joinPath input_dir f.name)
        ∈ messages (process_images cv entries input_dir output_dir text).1 := by
  have hemp : (imageFiles entries).isEmpty = false := by
    cases hcase : imageFiles entries
    · exact absurd hcase hne
    · rfl
  have hpi : process_images cv entries input_dir output_dir text =
      ([Event.mkdirParents output_dir,
        Event.msg ("Found " ++ toString (imageFiles entries).length
          ++ " images to process")]
        ++ loopEvents cv input_dir output_dir text (imageFiles entries)
        ++ [Event.msg "Processing complete:",
            Event.msg ("- Successful: "
              ++ toString ((imageFiles entries).countP (decodes cv input_dir))),
            Event.msg ("- Failed: "
              ++ toString ((imageFiles entries).length
                - (imageFiles entries).countP (decodes cv input_dir)))],
       none) := by
    simp only [process_images, hemp, Bool.false_eq_true, if_false,
      processLoop_ok cv input_dir output_dir text (imageFiles entries) hok]
    rfl
  refine ⟨by rw [hpi], ?_, ?_, ?_, ?_⟩
  · rw [hpi]
    simp [messages_append, messages]
  · rw [countP_not_eq (imageFiles entries) (decodes cv input_dir), hpi]
    simp [messages_append, messages]
  · rw [hpi]
    simp only [writtenPaths_append,
      loopEvents_writtenPaths cv input_dir output_dir text (imageFiles entries) hok]
    simp [writtenPaths]
  · intro f hf hdf
    rw [hpi]
    have hmsg : ("Error: Could not read image at " ++ joinPath input_dir f.name)
        ∈ messages (loopEvents cv input_dir output_dir text (imageFiles entries)) := by
      rw [loopEvents_messages cv input_dir output_dir text (imageFiles entries) hok]
      exact List.mem_map.mpr
        ⟨f, List.mem_filter.mpr ⟨hf, by simp [hdf]⟩, rfl⟩
    simp only [messages_append, List.mem_append]
    left
    right
    simpa [messages] using hmsg

/-- Closed witness for `C5_decode_failures_tallied` on the scenario of
three decodable files and one corrupt one. -/
theorem C5_decode_failures_tallied_witness :
    (imageFiles entriesBatch ≠ []) ∧
    (∀ f ∈ imageFiles entriesBatch,
      rwFault cvBatch (joinPath "in" f.name) (joinPath "out" f.name) "SAMPLE" = none) ∧
    ((process_images cvBatch entriesBatch "in" "out" "SAMPLE").2 = none ∧
      ("- Successful: "
          ++ toString ((imageFiles entriesBatch).countP (decodes cvBatch "in")))
        ∈ messages (process_images cvBatch entriesBatch "in" "out" "SAMPLE").1 ∧
      ("- Failed: "
          ++ toString ((imageFiles entriesBatch).countP
            (fun f => !(decodes cvBatch "in" f))))
        ∈ messages (process_images cvBatch entriesBatch "in" "out" "SAMPLE").1 ∧
      writtenPaths (process_images cvBatch entriesBatch "in" "out" "SAMPLE").1 =
        ((imageFiles entriesBatch).filter (decodes cvBatch "in")).map
          (fun f => joinPath "out" f.name) ∧
      ∀ f ∈ imageFiles entriesBatch, decodes cvBatch "in" f = false →
        ("Error: Could not read image at " ++ joinPath "in" f.name)
          ∈ messages (process_images cvBatch entriesBatch "in" "out" "SAMPLE").1) :=
  ⟨by decide, by decide,
   C5_decode_failures_tallied cvBatch entriesBatch "in" "out" "SAMPLE"
     (by decide) (by decide)⟩

/-- C6: a library fault during per-image processing is not caught
locally: it escapes the loop (which stops at the faulting file, so no
later file is processed or written and no tally is printed) and
`process_images` propagates it; only the top-level handler catches it,
appends the error message, and the process still exits with status
0. -/
theorem C6_fault_abandons_batch (cv : CV) (entries : List Entry)
    (input_dir output_dir text : String) (pre : List Entry) (bad : Entry)
    (post : List Entry) (e : String)
    (hsplit : imageFiles entries = pre ++ bad :: post)
    (hpre : ∀ f ∈ pre,
      rwFault cv (joinPath input_dir f.name) (joinPath output_dir f.name) text = none)
    (hbad : rwFault cv (joinPath input_dir bad.name) (joinPath output_dir bad.name) text
      = some e) :
    (process_images cv entries input_dir output_dir text).2 = some e ∧
    (process_images cv entries input_dir output_dir text).1 =
      [Event.mkdirParents output_dir,
       Event.msg ("Found " ++ toString (pre ++ bad :: post).length
         ++ " images to process")]
        ++ loopEvents cv input_dir output_dir text pre ∧
    writtenPaths (process_images cv entries input_dir output_dir text).1 =
      (pre.filter (decodes cv input_dir)).map (fun f => joinPath output_dir f.name) ∧
    (mainRun cv entries input_dir output_dir text).2 = 0 ∧
    (mainRun cv entries input_dir output_dir text).1 =
      (process_images cv entries input_dir output_dir text).1
        ++ [Event.msg ("Error: " ++ e)] := by
  have hemp : (pre ++ bad :: post).isEmpty = false := by
    cases pre <;> rfl
  have hpi : process_images cv entries input_dir output_dir text =
      ([Event.mkdirParents output_dir,
        Event.msg ("Found " ++ toString (pre ++ bad :: post).length
          ++ " images to process")]
        ++ loopEvents cv input_dir output_dir text pre, some e) := by
    simp only [process_images, hsplit, hemp, Bool.false_eq_true, if_false,
      processLoop_fault cv input_dir output_dir text pre bad post e hpre hbad]
    rfl
  refine ⟨by rw [hpi], by rw [hpi], ?_, ?_, ?_⟩
  · rw [hpi]
    simp only [writtenPaths_append,
      loopEvents_writtenPaths cv input_dir output_dir text pre hpre]
    simp [writtenPaths]
  · unfold mainRun
    rw [hpi]
  · unfold mainRun
    rw [hpi]

/-- Closed witness for `C6_fault_abandons_batch`: the middle file of a
three-file batch triggers an inpainting fault and the last file is
never processed. -/
theorem C6_fault_abandons_batch_witness :
    (imageFiles entriesFaulty =
      [⟨"good.png", true⟩] ++ (⟨"bad.png", true⟩ : Entry) :: [⟨"late.png", true⟩]) ∧
    (∀ f ∈ ([⟨"good.png", true⟩] : List Entry),
      rwFault cvFaulty (joinPath "in" f.name) (joinPath "out" f.name) "SAMPLE" = none) ∧
    (rwFault cvFaulty (joinPath "in" "bad.png") (joinPath "out" "bad.png") "SAMPLE"
      = some "boom") ∧
    ((process_images cvFaulty entriesFaulty "in" "out" "SAMPLE").2 = some "boom" ∧
      (process_images cvFaulty entriesFaulty "in" "out" "SAMPLE").1 =
        [Event.mkdirParents "out",
         Event.msg ("Found "
           ++ toString (([⟨"good.png", true⟩] : List Entry)
             ++ (⟨"bad.png", true⟩ : Entry) :: [⟨"late.png", true⟩]).length
           ++ " images to process")]
          ++ loopEvents cvFaulty "in" "out" "SAMPLE" [⟨"good.png", true⟩] ∧
      writtenPaths (process_images cvFaulty entriesFaulty "in" "out" "SAMPLE").1 =
        (([⟨"good.png", true⟩] : List Entry).filter (decodes cvFaulty "in")).map
          (fun f => joinPath "out" f.name) ∧
      (mainRun cvFaulty entriesFaulty "in" "out" "SAMPLE").2 = 0 ∧
      (mainRun cvFaulty entriesFaulty "in" "out" "SAMPLE").1 =
        (process_images cvFaulty entriesFaulty "in" "out" "SAMPLE").1
          ++ [Event.msg ("Error: " ++ "boom")]) :=
  ⟨by decide, by decide, by decide,
   C6_fault_abandons_batch cvFaulty entriesFaulty "in" "out" "SAMPLE"
     [⟨"good.png", true⟩] ⟨"bad.png", true⟩ [⟨"late.png", true⟩] "boom"
     (by decide) (by decide) (by decide)⟩
